import Mathlib

/-!
Shallow embedding of the sepsis risk-scoring engine
(`src/utils/enhancedMLModel.ts`, class `EnhancedSepsisMLModel`).

Numbers are modelled as rationals (`ℚ`); JavaScript `undefined`/`null`
field absence is modelled as `Option ℚ` (`none` = absent).  The class's
mutable fields (`model`, `thresholds`) become an explicit `EngineState`
passed to the methods that read them.  `Date` timestamps are outside the
embedding and are omitted from the report record.
-/

/-- Optional vital-sign fields of a patient record (`patientData.vitals`). -/
structure Vitals where
  HR : Option ℚ := none
  Temp : Option ℚ := none
  SBP : Option ℚ := none
  Resp : Option ℚ := none
  O2Sat : Option ℚ := none
  MAP : Option ℚ := none
  deriving DecidableEq, Repr

/-- Optional laboratory fields of a patient record (`patientData.labs`). -/
structure Labs where
  WBC : Option ℚ := none
  Lactate : Option ℚ := none
  Creatinine : Option ℚ := none
  Platelets : Option ℚ := none
  pH : Option ℚ := none
  Bilirubin_total : Option ℚ := none
  PTT : Option ℚ := none
  deriving DecidableEq, Repr

/-- A patient record: nested vitals/labs plus scalar demographic fields. -/
structure PatientRecord where
  vitals : Vitals := {}
  labs : Labs := {}
  Age : Option ℚ := none
  ICULOS : Option ℚ := none
  HospAdmTime : Option ℚ := none
  deriving DecidableEq, Repr

/-- The five risk levels a prediction can carry. -/
inductive RiskLevel where
  | LOW
  | MODERATE
  | HIGH
  | CRITICAL
  | UNCERTAIN
  deriving DecidableEq, Repr

/-- Result of `predictWithUncertainty`. -/
structure Prediction where
  probability : ℚ
  confidence : ℚ
  riskLevel : RiskLevel
  deriving DecidableEq, Repr

/-- Temperature channel risk weight (lines 113-126): a base SIRS weight
0.24 for >38 or <36, plus independent extra layers 0.18 (>39.5 or <35)
and 0.12 (>40 or <34); absent channel contributes nothing here. -/
def tempRisk : Option ℚ → ℚ
  | none => 0
  | some v =>
      (if v > 38 ∨ v < 36 then 0.24 else 0)
        + (if v > 39.5 ∨ v < 35 then 0.18 else 0)
        + (if v > 40 ∨ v < 34 then 0.12 else 0)

/-- Heart-rate channel risk weight (lines 131-148): base 0.21 (>90),
layers 0.15 (>120) and 0.10 (>150), independent bradycardia branch
0.18 (<60). -/
def hrRisk : Option ℚ → ℚ
  | none => 0
  | some v =>
      (if v > 90 then 0.21 else 0)
        + (if v > 120 then 0.15 else 0)
        + (if v > 150 then 0.10 else 0)
        + (if v < 60 then 0.18 else 0)

/-- Respiratory-rate channel risk weight (lines 153-166): base 0.18 (>20),
layers 0.12 (>28) and 0.08 (>35). -/
def respRisk : Option ℚ → ℚ
  | none => 0
  | some v =>
      (if v > 20 then 0.18 else 0)
        + (if v > 28 then 0.12 else 0)
        + (if v > 35 then 0.08 else 0)

/-- WBC channel risk weight (lines 171-184): base 0.28 (>12 or <4), layers
0.20 (>20 or <2) and 0.15 (>30 or <1). -/
def wbcRisk : Option ℚ → ℚ
  | none => 0
  | some v =>
      (if v > 12 ∨ v < 4 then 0.28 else 0)
        + (if v > 20 ∨ v < 2 then 0.20 else 0)
        + (if v > 30 ∨ v < 1 then 0.15 else 0)

/-- MAP channel risk weight (lines 190-200): mutually exclusive bands
<65→0.35, <70→0.22, <75→0.12. -/
def mapRisk : Option ℚ → ℚ
  | none => 0
  | some v =>
      if v < 65 then 0.35 else if v < 70 then 0.22 else if v < 75 then 0.12 else 0

/-- Lactate channel risk weight (lines 202-217): mutually exclusive bands
>4.0→0.42, >2.5→0.28, >2.0→0.18, >1.5→0.08. -/
def lactateRisk : Option ℚ → ℚ
  | none => 0
  | some v =>
      if v > 4 then 0.42 else if v > 2.5 then 0.28 else if v > 2 then 0.18
        else if v > 1.5 then 0.08 else 0

/-- Confidence bonus added inside the lactate bands (lines 206-214):
>4.0→+0.10, >2.5→+0.06, >2.0→+0.03, otherwise 0. -/
def lactateConfBonus : Option ℚ → ℚ
  | none => 0
  | some v =>
      if v > 4 then 0.10 else if v > 2.5 then 0.06 else if v > 2 then 0.03 else 0

/-- Creatinine risk (lines 223-225); the JS optional-chained comparison on
an absent field is false, so `none` contributes 0. -/
def creatinineRisk : Option ℚ → ℚ
  | none => 0
  | some v => if v > 3 then 0.25 else if v > 2 then 0.18 else if v > 1.5 then 0.10 else 0

/-- Platelets risk (lines 227-229). -/
def plateletsRisk : Option ℚ → ℚ
  | none => 0
  | some v => if v < 50 then 0.28 else if v < 100 then 0.20 else if v < 150 then 0.12 else 0

/-- Oxygen-saturation risk (lines 231-233). -/
def o2satRisk : Option ℚ → ℚ
  | none => 0
  | some v => if v < 85 then 0.30 else if v < 90 then 0.22 else if v < 95 then 0.12 else 0

/-- Blood-pH risk (lines 235-237). -/
def phRisk : Option ℚ → ℚ
  | none => 0
  | some v => if v < 7.20 then 0.25 else if v < 7.30 then 0.15 else if v < 7.35 then 0.08 else 0

/-- Total-bilirubin risk (lines 240-241). -/
def bilirubinRisk : Option ℚ → ℚ
  | none => 0
  | some v => if v > 4 then 0.20 else if v > 2 then 0.12 else 0

/-- PTT (coagulation) risk (lines 244-245). -/
def pttRisk : Option ℚ → ℚ
  | none => 0
  | some v => if v > 60 then 0.15 else if v > 45 then 0.08 else 0

/-- ICU length-of-stay risk (lines 248-250). -/
def iculosRisk : Option ℚ → ℚ
  | none => 0
  | some v => if v > 72 then 0.12 else if v > 48 then 0.08 else if v > 24 then 0.05 else 0

/-- Age risk (lines 252-253). -/
def ageRisk : Option ℚ → ℚ
  | none => 0
  | some v => if v > 75 then 0.08 else if v > 65 then 0.05 else 0

/-- Hospital-admission elapsed-time risk (lines 256-257). -/
def hospAdmRisk : Option ℚ → ℚ
  | none => 0
  | some v => if v > 168 then 0.08 else if v > 72 then 0.05 else 0

/-- The raw (unclamped) `riskScore` accumulated over all fifteen evidence
channels of `predictWithUncertainty`, before the final ×1.05 and clamp. -/
def riskScoreRaw (p : PatientRecord) : ℚ :=
  tempRisk p.vitals.Temp + hrRisk p.vitals.HR + respRisk p.vitals.Resp
    + wbcRisk p.labs.WBC + mapRisk p.vitals.MAP + lactateRisk p.labs.Lactate
    + creatinineRisk p.labs.Creatinine + plateletsRisk p.labs.Platelets
    + o2satRisk p.vitals.O2Sat + phRisk p.labs.pH
    + bilirubinRisk p.labs.Bilirubin_total + pttRisk p.labs.PTT
    + iculosRisk p.ICULOS + ageRisk p.Age + hospAdmRisk p.HospAdmTime

/-- The `uncertaintyPenalty` counter: each of the five penalty-carrying
channels adds its fixed penalty exactly when the field is absent
(temp 0.06, HR 0.06, resp 0.05, WBC 0.10, lactate 0.12). -/
def uncertaintyPenalty (p : PatientRecord) : ℚ :=
  (if p.vitals.Temp.isSome then 0 else 0.06)
    + (if p.vitals.HR.isSome then 0 else 0.06)
    + (if p.vitals.Resp.isSome then 0 else 0.05)
    + (if p.labs.WBC.isSome then 0 else 0.10)
    + (if p.labs.Lactate.isSome then 0 else 0.12)

/-- The `sirsCount` counter: number of SIRS criteria met among the four
SIRS channels (lines 117-118, 135-136, 157-158, 175-176). -/
def sirsCount (p : PatientRecord) : ℕ :=
  (match p.vitals.Temp with | some v => if v > 38 ∨ v < 36 then 1 else 0 | none => 0)
    + (match p.vitals.HR with | some v => if v > 90 then 1 else 0 | none => 0)
    + (match p.vitals.Resp with | some v => if v > 20 then 1 else 0 | none => 0)
    + (match p.labs.WBC with | some v => if v > 12 ∨ v < 4 then 1 else 0 | none => 0)

/-- The `totalChecks` counter.  In the source it is incremented at the top
of the present-branch of each of the six tracked channels: Temp (line 115),
HR (133), Resp (155), WBC (173), MAP (191), Lactate (204); so it equals
the number of those six channels that are present. -/
def totalChecks (p : PatientRecord) : ℕ :=
  (if p.vitals.Temp.isSome then 1 else 0)
    + (if p.vitals.HR.isSome then 1 else 0)
    + (if p.vitals.Resp.isSome then 1 else 0)
    + (if p.labs.WBC.isSome then 1 else 0)
    + (if p.vitals.MAP.isSome then 1 else 0)
    + (if p.labs.Lactate.isSome then 1 else 0)

/-- The `dataCompleteness` counter.  It is incremented immediately after
`totalChecks` in every one of the same six present-branches (lines 116,
134, 156, 174, 192, 205), so its body coincides with `totalChecks`. -/
def dataCompleteness (p : PatientRecord) : ℕ :=
  (if p.vitals.Temp.isSome then 1 else 0)
    + (if p.vitals.HR.isSome then 1 else 0)
    + (if p.vitals.Resp.isSome then 1 else 0)
    + (if p.labs.WBC.isSome then 1 else 0)
    + (if p.vitals.MAP.isSome then 1 else 0)
    + (if p.labs.Lactate.isSome then 1 else 0)

/-- The completeness ratio of line 260:
`totalChecks > 0 ? dataCompleteness / totalChecks : 0`. -/
def completenessFrac (p : PatientRecord) : ℚ :=
  if totalChecks p > 0 then (dataCompleteness p : ℚ) / (totalChecks p : ℚ) else 0

/-- Final probability (line 267): `clamp(0, 1, riskScore * 1.05)`. -/
def probabilityOf (p : PatientRecord) : ℚ :=
  max 0 (min 1 (riskScoreRaw p * 1.05))

/-- Final confidence (lines 263-264): start at 0.88, add the lactate
bonuses, subtract 0.7×penalty, scale by (0.75 + 0.25×completeness), and
clamp to [0.3, 0.96]. -/
def confidenceOf (p : PatientRecord) : ℚ :=
  max 0.3 (min 0.96
    ((0.88 + lactateConfBonus p.labs.Lactate - uncertaintyPenalty p * 0.7)
      * (0.75 + 0.25 * completenessFrac p)))

/-- Risk-level decision (lines 272-282), first match wins. -/
def riskLevelOf (p : PatientRecord) : RiskLevel :=
  if confidenceOf p < 0.55 ∨ completenessFrac p < 0.35 then RiskLevel.UNCERTAIN
  else if probabilityOf p < 0.18 then RiskLevel.LOW
  else if probabilityOf p < 0.42 then RiskLevel.MODERATE
  else if probabilityOf p < 0.68 then RiskLevel.HIGH
  else RiskLevel.CRITICAL

/-- The public `predictWithUncertainty` method (lines 98-289).  It reads no
engine state, so it is a pure function of the record. -/
def predictWithUncertainty (p : PatientRecord) : Prediction :=
  { probability := probabilityOf p
    confidence := confidenceOf p
    riskLevel := riskLevelOf p }

/-- Per-parameter threshold configuration (`ThresholdSettings` entry):
optional min/max/critical bounds plus an enabled flag. -/
structure ParameterThreshold where
  min : Option ℚ := none
  max : Option ℚ := none
  critical : Option ℚ := none
  enabled : Bool := true
  deriving DecidableEq, Repr

/-- Severity of a threshold violation. -/
inductive Severity where
  | warning
  | critical
  deriving DecidableEq, Repr

/-- A single threshold violation record. -/
structure Violation where
  parameter : String
  value : ℚ
  threshold : ℚ
  severity : Severity
  deriving DecidableEq, Repr

/-- The default threshold table installed by `initializeDefaultThresholds`
(lines 13-26), in insertion order. -/
def defaultThresholds : List (String × ParameterThreshold) :=
  [("HR", { min := some 60, max := some 100, critical := some 120 }),
   ("Temp", { min := some 36.1, max := some 37.2, critical := some 38.5 }),
   ("SBP", { min := some 90, max := some 140, critical := some 80 }),
   ("Resp", { min := some 12, max := some 20, critical := some 25 }),
   ("O2Sat", { min := some 95, max := some 100, critical := some 90 }),
   ("WBC", { min := some 4.0, max := some 12.0, critical := some 15.0 }),
   ("Lactate", { min := some 0.5, max := some 2.2, critical := some 4.0 }),
   ("Creatinine", { min := some 0.7, max := some 1.3, critical := some 2.0 }),
   ("Platelets", { min := some 150, max := some 450, critical := some 100 }),
   ("MAP", { min := some 70, max := some 100, critical := some 65 })]

/-- Lookup of `patientData.vitals?.[param]` by parameter name. -/
def vitalsLookup (v : Vitals) : String → Option ℚ
  | "HR" => v.HR
  | "Temp" => v.Temp
  | "SBP" => v.SBP
  | "Resp" => v.Resp
  | "O2Sat" => v.O2Sat
  | "MAP" => v.MAP
  | _ => none

/-- Lookup of `patientData.labs?.[param]` by parameter name. -/
def labsLookup (l : Labs) : String → Option ℚ
  | "WBC" => l.WBC
  | "Lactate" => l.Lactate
  | "Creatinine" => l.Creatinine
  | "Platelets" => l.Platelets
  | "pH" => l.pH
  | "Bilirubin_total" => l.Bilirubin_total
  | "PTT" => l.PTT
  | _ => none

/-- Value resolution of `checkThresholds` (lines 302-310): vitals first,
then labs; `none` when the parameter is found in neither map. -/
def resolveValue (p : PatientRecord) (param : String) : Option ℚ :=
  match vitalsLookup p.vitals param with
  | some v => some v
  | none => labsLookup p.labs param

/-- Parameters whose critical threshold is a lower bound (line 314):
SBP, MAP, O2Sat, Platelets.  For all others critical is an upper bound. -/
def isLowerBoundCritical (param : String) : Bool :=
  param == "SBP" || param == "MAP" || param == "O2Sat" || param == "Platelets"

/-- Violations contributed by one table entry in `checkThresholds`
(the body of the lines 299-348 loop): skip when disabled or unresolved;
otherwise critical check first (direction-dependent), then the min check,
then the max check. -/
def perParamViolations (param : String) (config : ParameterThreshold)
    (p : PatientRecord) : List Violation :=
  if !config.enabled then []
  else
    match resolveValue p param with
    | none => []
    | some value =>
        (match config.critical with
         | some c =>
             if isLowerBoundCritical param then
               if value < c then [⟨param, value, c, Severity.critical⟩] else []
             else
               if value > c then [⟨param, value, c, Severity.critical⟩] else []
         | none => [])
          ++ (match config.min with
              | some mn => if value < mn then [⟨param, value, mn, Severity.warning⟩] else []
              | none => [])
          ++ (match config.max with
              | some mx => if value > mx then [⟨param, value, mx, Severity.warning⟩] else []
              | none => [])

/-- The `checkThresholds` method (lines 291-351): concatenation of the
per-parameter violation groups in table iteration order. -/
def checkThresholds (thresholds : List (String × ParameterThreshold))
    (p : PatientRecord) : List Violation :=
  (thresholds.map fun pc => perParamViolations pc.1 pc.2 p).flatten

/-- JS truthiness of an optional numeric field: `!x` is true when the
field is absent or its value is 0. -/
def isFalsy : Option ℚ → Bool
  | none => true
  | some v => v == 0

/-- JS optional-chained comparison `x?.f > c`: false when the field is
absent. -/
def optGT (o : Option ℚ) (c : ℚ) : Bool :=
  match o with
  | some v => decide (v > c)
  | none => false

/-- JS optional-chained comparison `x?.f < c`: false when the field is
absent. -/
def optLT (o : Option ℚ) (c : ℚ) : Bool :=
  match o with
  | some v => decide (v < c)
  | none => false

/-- The `identifyUncertaintyFactors` method (lines 429-447).  The four
missing-data checks use JS truthiness (`!patientData.labs?.Lactate`
etc.), so a recorded value of 0 is also treated as missing; then the two
borderline checks. -/
def identifyUncertaintyFactors (p : PatientRecord) : List String :=
  (if isFalsy p.labs.Lactate then ["Missing lactate levels"] else [])
    ++ (if isFalsy p.labs.WBC then ["Missing white blood cell count"] else [])
    ++ (if isFalsy p.vitals.HR then ["Missing heart rate data"] else [])
    ++ (if isFalsy p.vitals.Temp then ["Missing temperature readings"] else [])
    ++ (if optGT p.labs.Lactate 2.0 && optLT p.labs.Lactate 2.5 then
          ["Borderline lactate elevation"] else [])
    ++ (if optGT p.vitals.HR 85 && optLT p.vitals.HR 95 then
          ["Borderline tachycardia"] else [])

/-- The `generateClinicalFindings` method (lines 353-393): hardcoded
literal-threshold findings in fixed order, then one finding per
critical-severity violation in violation order.  Number-to-string
formatting uses the rational's `toString`. -/
def generateClinicalFindings (p : PatientRecord) (violations : List Violation) :
    List String :=
  (match p.vitals.HR with
   | some v => if v > 100 then ["Tachycardia present (HR: " ++ toString v ++ " bpm)"] else []
   | none => [])
    ++ (match p.vitals.Temp with
        | some v => if v > 38.3 then ["Hyperthermia detected (" ++ toString v ++ "°C)"] else []
        | none => [])
    ++ (match p.vitals.Temp with
        | some v => if v < 36 then ["Hypothermia detected (" ++ toString v ++ "°C)"] else []
        | none => [])
    ++ (match p.vitals.SBP with
        | some v => if v < 90 then ["Hypotension present (SBP: " ++ toString v ++ " mmHg)"] else []
        | none => [])
    ++ (match p.vitals.Resp with
        | some v => if v > 22 then ["Tachypnea observed (" ++ toString v ++ "/min)"] else []
        | none => [])
    ++ (match p.labs.Lactate with
        | some v => if v > 2.5 then ["Elevated lactate levels (" ++ toString v ++ " mmol/L)"] else []
        | none => [])
    ++ (match p.labs.WBC with
        | some v => if v > 12 then ["Leukocytosis present (WBC: " ++ toString v ++ " K/μL)"] else []
        | none => [])
    ++ (match p.labs.WBC with
        | some v => if v < 4 then ["Leukopenia detected (WBC: " ++ toString v ++ " K/μL)"] else []
        | none => [])
    ++ (match p.labs.Platelets with
        | some v => if v < 150 then ["Thrombocytopenia observed (" ++ toString v ++ " K/μL)"] else []
        | none => [])
    ++ ((violations.filter fun v => v.severity == Severity.critical).map fun v =>
          "CRITICAL: " ++ v.parameter ++ " at " ++ toString v.value
            ++ " (threshold: " ++ toString v.threshold ++ ")")

/-- The `generateRecommendations` method (lines 395-427): a fixed block
per risk level, then per-violation items for critical Lactate and
critical MAP, scanned in violation order. -/
def generateRecommendations (prediction : Prediction) (violations : List Violation) :
    List String :=
  (if prediction.riskLevel == RiskLevel.UNCERTAIN then
     ["⚠️ UNCERTAINTY DETECTED: Insufficient data for confident diagnosis",
      "🔍 Obtain additional vital signs and laboratory values",
      "👨‍⚕️ Consider clinical assessment by senior physician",
      "📊 Implement enhanced monitoring protocols"]
   else if prediction.riskLevel == RiskLevel.CRITICAL then
     ["🚨 CRITICAL: Initiate sepsis bundle protocol IMMEDIATELY",
      "💊 Administer broad-spectrum antibiotics within 1 hour",
      "🩸 Obtain blood cultures before antibiotic administration",
      "💧 Begin aggressive fluid resuscitation (30ml/kg crystalloid)",
      "🏥 Consider ICU transfer"]
   else if prediction.riskLevel == RiskLevel.HIGH then
     ["⚠️ HIGH RISK: Close monitoring required",
      "🧪 Order additional labs: procalcitonin, CRP, blood cultures",
      "💧 Consider fluid challenge if hypotensive",
      "👨‍⚕️ Infectious disease consultation recommended"]
   else [])
    ++ (violations.map fun violation =>
          (if violation.parameter == "Lactate" && violation.severity == Severity.critical then
             ["🔬 Severe hyperlactatemia - investigate shock etiology"] else [])
            ++ (if violation.parameter == "MAP" && violation.severity == Severity.critical then
                  ["💉 Consider vasopressor support"] else [])).flatten

/-- The `generateTreatmentPlan` method (lines 449-469): fixed plan per
risk level; LOW and MODERATE produce an empty plan. -/
def generateTreatmentPlan (prediction : Prediction) : List String :=
  if prediction.riskLevel == RiskLevel.UNCERTAIN then
    ["Conservative monitoring approach due to diagnostic uncertainty",
     "Avoid aggressive interventions until more data available",
     "Consider empirical treatment only if clinical deterioration",
     "Document uncertainty in medical record"]
  else if prediction.riskLevel == RiskLevel.CRITICAL then
    ["Immediate sepsis protocol activation",
     "Antibiotic therapy within 1 hour",
     "Fluid resuscitation 30ml/kg over 3 hours",
     "Vasopressor support if MAP < 65 mmHg after fluids"]
  else if prediction.riskLevel == RiskLevel.HIGH then
    ["Enhanced monitoring every 2 hours",
     "Prepare for potential sepsis protocol",
     "Consider empirical antibiotics if clinical worsening"]
  else []

/-- The `generateFollowUpActions` method (lines 471-484): two
reassessment items when any uncertainty factor exists, then three fixed
standing-order items. -/
def generateFollowUpActions (uncertaintyFactors : List String) : List String :=
  (if uncertaintyFactors.length > 0 then
     ["Reassess in 2-4 hours with additional data",
      "Obtain missing laboratory values"]
   else [])
    ++ ["Monitor vital signs hourly",
        "Document clinical response to interventions",
        "Reassess sepsis risk every 6 hours"]

/-- One row of an uploaded dataset, restricted to the field the metrics
synthesizer reads: the sepsis label. -/
structure DatasetRow where
  SepsisLabel : Option ℤ := none
  deriving DecidableEq, Repr

/-- The static feature-importance list of lines 516-529. -/
def staticFeatureImportance : List (String × ℚ) :=
  [("Lactate", 0.18), ("WBC", 0.16), ("MAP", 0.14), ("Temperature", 0.12),
   ("Heart_Rate", 0.11), ("Platelets", 0.09), ("Creatinine", 0.08),
   ("Respiratory_Rate", 0.07), ("O2_Saturation", 0.05), ("Age", 0.04),
   ("ICULOS", 0.03), ("pH", 0.03)]

/-- The quality-metric bundle returned by `generateEnhancedMetrics`.  The
confusion matrix `[[tn, fp], [fn, tp]]` is encoded as nested pairs:
first row `(tn, fp)`, second row `(fn, tp)`. -/
structure ModelMetrics where
  accuracy : ℚ
  precision : ℚ
  recall' : ℚ
  f1Score : ℚ
  auc : ℚ
  confusionMatrix : (ℤ × ℤ) × (ℤ × ℤ)
  featureImportance : List (String × ℚ)
  falsePositiveRate : ℚ
  falseNegativeRate : ℚ
  deriving DecidableEq, Repr

/-- The false-positive-rate expression of line 504, verbatim:
`(1 - precision) * (recall / (1 - recall + recall))`. -/
def falsePositiveRateFormula (precision recall' : ℚ) : ℚ :=
  (1 - precision) * (recall' / (1 - recall' + recall'))

/-- The `generateEnhancedMetrics` method (lines 494-542).  The four
uniform draws of lines 496-500 are isolated as the arguments `accuracy`,
`recall`, `precision`, `auc` (documented ranges: accuracy∈[0.87,0.93),
recall∈[0.89,0.97), precision∈[0.83,0.92), auc∈[0.91,0.97)); everything
after the draws is the deterministic derivation reproduced here.
`Math.round` is `round` (half away from negative, i.e. ⌊x + 1/2⌋).
The unused local `features` of line 515 is dropped. -/
def generateEnhancedMetrics (dataset : List DatasetRow)
    (accuracy recall' precision auc : ℚ) : ModelMetrics :=
  let f1Score := 2 * (precision * recall') / (precision + recall')
  let falseNegativeRate := 1 - recall'
  let falsePositiveRate := falsePositiveRateFormula precision recall'
  let totalSamples := dataset.length
  let positiveSamples := (dataset.filter fun row => row.SepsisLabel == some 1).length
  let negativeSamples : ℤ := (totalSamples : ℤ) - (positiveSamples : ℤ)
  let tp : ℤ := round ((positiveSamples : ℚ) * recall')
  let fn : ℤ := (positiveSamples : ℤ) - tp
  let fp : ℤ := round ((negativeSamples : ℚ) * falsePositiveRate)
  let tn : ℤ := negativeSamples - fp
  { accuracy := accuracy
    precision := precision
    recall' := recall'
    f1Score := f1Score
    auc := auc
    confusionMatrix := ((tn, fp), (fn, tp))
    featureImportance := staticFeatureImportance
    falsePositiveRate := falsePositiveRate
    falseNegativeRate := falseNegativeRate }

/-- The `model` object assigned on training completion (lines 47-59),
reduced to the fields observable through the class's public surface; its
only role in `analyzePatient` is being non-null. -/
structure TrainedModel where
  trained : Bool := true
  features : List String := []
  deriving DecidableEq, Repr

/-- The mutable state of an `EnhancedSepsisMLModel` instance read by the
analysis path: the `model` field (null until training completes) and the
threshold table. -/
structure EngineState where
  model : Option TrainedModel
  thresholds : List (String × ParameterThreshold)
  deriving DecidableEq, Repr

/-- A freshly constructed engine: `model = null`, default thresholds. -/
def freshEngine : EngineState :=
  { model := none, thresholds := defaultThresholds }

/-- The class method `predictWithUncertainty` with its receiver made
explicit.  The method body never reads `this`, so it delegates to the
pure function. -/
def enginePredict (s : EngineState) (p : PatientRecord) : Prediction :=
  predictWithUncertainty p

/-- A patient analysis report (the `Date` timestamp of line 94 is outside
the embedding). -/
structure PatientAnalysisReport where
  patientId : String
  overallRisk : RiskLevel
  confidence : ℚ
  riskProbability : ℚ
  clinicalFindings : List String
  recommendations : List String
  thresholdViolations : List Violation
  uncertaintyFactors : List String
  treatmentPlan : List String
  followUpActions : List String
  deriving DecidableEq, Repr

/-- The `analyzePatient` method (lines 71-96): throws "Model not trained
yet" when `model` is null, otherwise assembles the report. -/
def analyzePatient (s : EngineState) (patientData : PatientRecord)
    (patientId : String) : Except String PatientAnalysisReport :=
  match s.model with
  | none => Except.error "Model not trained yet"
  | some _ =>
      let prediction := predictWithUncertainty patientData
      let thresholdViolations := checkThresholds s.thresholds patientData
      let clinicalFindings := generateClinicalFindings patientData thresholdViolations
      let recommendations := generateRecommendations prediction thresholdViolations
      let uncertaintyFactors := identifyUncertaintyFactors patientData
      let treatmentPlan := generateTreatmentPlan prediction
      Except.ok
        { patientId := patientId
          overallRisk := prediction.riskLevel
          confidence := prediction.confidence
          riskProbability := prediction.probability
          clinicalFindings := clinicalFindings
          recommendations := recommendations
          thresholdViolations := thresholdViolations
          uncertaintyFactors := uncertaintyFactors
          treatmentPlan := treatmentPlan
          followUpActions := generateFollowUpActions uncertaintyFactors }

/-- Number of SIRS channels (Temp, HR, Resp, WBC) present in a record:
the count the spec describes as the completeness denominator. -/
def sirsPresentCount (p : PatientRecord) : ℕ :=
  (if p.vitals.Temp.isSome then 1 else 0)
    + (if p.vitals.HR.isSome then 1 else 0)
    + (if p.vitals.Resp.isSome then 1 else 0)
    + (if p.labs.WBC.isSome then 1 else 0)

/-- Sum of the risk contributions of the fourteen channels other than
lactate; used to factor `riskScoreRaw`. -/
def nonLactateRisk (p : PatientRecord) : ℚ :=
  tempRisk p.vitals.Temp + hrRisk p.vitals.HR + respRisk p.vitals.Resp
    + wbcRisk p.labs.WBC + mapRisk p.vitals.MAP
    + creatinineRisk p.labs.Creatinine + plateletsRisk p.labs.Platelets
    + o2satRisk p.vitals.O2Sat + phRisk p.labs.pH
    + bilirubinRisk p.labs.Bilirubin_total + pttRisk p.labs.PTT
    + iculosRisk p.ICULOS + ageRisk p.Age + hospAdmRisk p.HospAdmTime

/-- Replace the lactate value of a record, all other fields unchanged. -/
def setLactate (p : PatientRecord) (v : ℚ) : PatientRecord :=
  { p with labs := { p.labs with Lactate := some v } }

example : (predictWithUncertainty {}).riskLevel = RiskLevel.UNCERTAIN := by
  norm_num [predictWithUncertainty, riskLevelOf, confidenceOf, probabilityOf,
    completenessFrac, totalChecks, dataCompleteness, uncertaintyPenalty,
    lactateConfBonus, riskScoreRaw]

example :
    (predictWithUncertainty
      { vitals := { HR := some 130, Temp := some 39.8, Resp := some 30, MAP := some 60 }
        labs := { WBC := some 22, Lactate := some 4.5, Platelets := some 80 } }).riskLevel
      = RiskLevel.CRITICAL := by
  norm_num [predictWithUncertainty, riskLevelOf, confidenceOf, probabilityOf,
    completenessFrac, totalChecks, dataCompleteness, uncertaintyPenalty,
    lactateConfBonus, riskScoreRaw, tempRisk, hrRisk, respRisk, wbcRisk, mapRisk,
    lactateRisk, creatinineRisk, plateletsRisk, o2satRisk, phRisk, bilirubinRisk,
    pttRisk, iculosRisk, ageRisk, hospAdmRisk]

lemma riskScoreRaw_decomp (p : PatientRecord) :
    riskScoreRaw p = nonLactateRisk p + lactateRisk p.labs.Lactate := by
  unfold riskScoreRaw nonLactateRisk
  ring

lemma probability_setLactate_mono (p : PatientRecord) (v w : ℚ)
    (h : lactateRisk (some v) ≤ lactateRisk (some w)) :
    probabilityOf (setLactate p v) ≤ probabilityOf (setLactate p w) := by
  have hv : riskScoreRaw (setLactate p v) = nonLactateRisk p + lactateRisk (some v) := by
    rw [riskScoreRaw_decomp]; rfl
  have hw : riskScoreRaw (setLactate p w) = nonLactateRisk p + lactateRisk (some w) := by
    rw [riskScoreRaw_decomp]; rfl
  unfold probabilityOf
  rw [hv, hw]
  refine max_le_max le_rfl (min_le_min le_rfl ?_)
  nlinarith

/-- C1: the claim that only the four SIRS channels increment the
`totalChecks`/`dataCompleteness` counters is false: a record carrying
only a MAP value (no SIRS channel present) already has both counters at
1, because the MAP branch increments them too (source lines 191-192). -/
theorem sirs_only_counters_counterexample :
    totalChecks { vitals := { MAP := some 80 } } = 1
    ∧ dataCompleteness { vitals := { MAP := some 80 } } = 1
    ∧ sirsPresentCount { vitals := { MAP := some 80 } } = 0 :=
  ⟨rfl, rfl, rfl⟩

/-- C1 (amended): six channels — the four SIRS channels plus MAP and
lactate — increment `totalChecks` and `dataCompleteness`, each exactly
when present, and the two counters always coincide. -/
theorem counters_track_six_channels (p : PatientRecord) :
    totalChecks p = sirsPresentCount p
        + (if p.vitals.MAP.isSome then 1 else 0)
        + (if p.labs.Lactate.isSome then 1 else 0)
    ∧ dataCompleteness p = totalChecks p :=
  ⟨rfl, rfl⟩

/-- C2: the risk level of every prediction is decided by the
first-match-wins rule: confidence < 0.55 or completeness < 0.35 gives
UNCERTAIN, else probability bands at 0.18 / 0.42 / 0.68 give LOW /
MODERATE / HIGH / CRITICAL. -/
theorem risk_level_first_match (p : PatientRecord) :
    (predictWithUncertainty p).riskLevel =
      if (predictWithUncertainty p).confidence < 0.55 ∨ completenessFrac p < 0.35 then
        RiskLevel.UNCERTAIN
      else if (predictWithUncertainty p).probability < 0.18 then RiskLevel.LOW
      else if (predictWithUncertainty p).probability < 0.42 then RiskLevel.MODERATE
      else if (predictWithUncertainty p).probability < 0.68 then RiskLevel.HIGH
      else RiskLevel.CRITICAL :=
  rfl

/-- C3: for every record, however extreme its values, the returned
probability lies in [0, 1] and the returned confidence in [0.3, 0.96]. -/
theorem prediction_clamp_bounds (p : PatientRecord) :
    0 ≤ (predictWithUncertainty p).probability
    ∧ (predictWithUncertainty p).probability ≤ 1
    ∧ 0.3 ≤ (predictWithUncertainty p).confidence
    ∧ (predictWithUncertainty p).confidence ≤ 0.96 := by
  refine ⟨le_max_left 0 _, max_le (by norm_num) (min_le_left 1 _),
    le_max_left 0.3 _, max_le (by norm_num) (min_le_left 0.96 _)⟩

/-- C4: replacing a record's lactate value along the tier-crossing
sequence 1.4 → 1.6 → 2.1 → 2.6 → 4.1 (all other fields fixed) never
decreases the probability returned by `predictWithUncertainty`. -/
theorem lactate_tier_monotonicity (p : PatientRecord) :
    (predictWithUncertainty (setLactate p 1.4)).probability
        ≤ (predictWithUncertainty (setLactate p 1.6)).probability
    ∧ (predictWithUncertainty (setLactate p 1.6)).probability
        ≤ (predictWithUncertainty (setLactate p 2.1)).probability
    ∧ (predictWithUncertainty (setLactate p 2.1)).probability
        ≤ (predictWithUncertainty (setLactate p 2.6)).probability
    ∧ (predictWithUncertainty (setLactate p 2.6)).probability
        ≤ (predictWithUncertainty (setLactate p 4.1)).probability := by
  refine ⟨probability_setLactate_mono p _ _ ?_, probability_setLactate_mono p _ _ ?_,
    probability_setLactate_mono p _ _ ?_, probability_setLactate_mono p _ _ ?_⟩ <;>
    norm_num [lactateRisk]

/-- C5: the claim that `checkThresholds` never emits both the min-breach
and the max-breach warning for one parameter in one call is false once a
contradictory configuration (min > max) is installed: with HR configured
as min 10, max 5, critical 100 and a recorded HR of 7, the call emits
both warnings. -/
theorem min_max_exclusive_counterexample :
    checkThresholds [("HR", { min := some 10, max := some 5, critical := some 100 })]
        { vitals := { HR := some 7 } }
      = [⟨"HR", 7, 10, Severity.warning⟩, ⟨"HR", 7, 5, Severity.warning⟩] := by
  rfl

/-- C5 (amended): for an enabled parameter with min, max and critical all
configured and a resolved value, the evaluator emits at most 3 violations
for that parameter, exactly in the order [critical, min-breach,
max-breach]; the min and max warnings are mutually exclusive whenever the
configured range is sane (min ≤ max), but contradictory configurations
(min > max) are accepted and can yield both. -/
theorem per_param_violation_shape
    (param : String) (config : ParameterThreshold) (p : PatientRecord)
    (mn mx c value : ℚ)
    (he : config.enabled = true) (hmn : config.min = some mn)
    (hmx : config.max = some mx) (hc : config.critical = some c)
    (hv : resolveValue p param = some value) :
    perParamViolations param config p
      = (if (if isLowerBoundCritical param then value < c else value > c)
           then [⟨param, value, c, Severity.critical⟩] else [])
        ++ (if value < mn then [⟨param, value, mn, Severity.warning⟩] else [])
        ++ (if value > mx then [⟨param, value, mx, Severity.warning⟩] else [])
    ∧ (perParamViolations param config p).length ≤ 3
    ∧ (mn ≤ mx → ¬(value < mn ∧ value > mx)) := by
  have hshape : perParamViolations param config p
      = (if (if isLowerBoundCritical param then value < c else value > c)
           then [⟨param, value, c, Severity.critical⟩] else [])
        ++ (if value < mn then [⟨param, value, mn, Severity.warning⟩] else [])
        ++ (if value > mx then [⟨param, value, mx, Severity.warning⟩] else []) := by
    unfold perParamViolations
    rw [he, hv, hmn, hmx, hc]
    cases hL : isLowerBoundCritical param <;> simp [hL]
  refine ⟨hshape, ?_, ?_⟩
  · rw [hshape]
    simp only [List.length_append]
    split_ifs <;> simp
  · rintro hle ⟨h1, h2⟩
    linarith

theorem per_param_violation_shape_witness :
    (perParamViolations "HR"
        { min := some 60, max := some 100, critical := some 120, enabled := true }
        { vitals := { HR := some 130 } }
      = (if (if isLowerBoundCritical "HR" then (130 : ℚ) < 120 else (130 : ℚ) > 120)
           then [⟨"HR", 130, 120, Severity.critical⟩] else [])
        ++ (if (130 : ℚ) < 60 then [⟨"HR", 130, 60, Severity.warning⟩] else [])
        ++ (if (130 : ℚ) > 100 then [⟨"HR", 130, 100, Severity.warning⟩] else []))
    ∧ (perParamViolations "HR"
        { min := some 60, max := some 100, critical := some 120, enabled := true }
        { vitals := { HR := some 130 } }).length ≤ 3
    ∧ ((60 : ℚ) ≤ 100 → ¬((130 : ℚ) < 60 ∧ (130 : ℚ) > 100)) :=
  per_param_violation_shape "HR"
    { min := some 60, max := some 100, critical := some 120, enabled := true }
    { vitals := { HR := some 130 } } 60 100 120 130 rfl rfl rfl rfl rfl

/-- C6: for every dataset (total rows N, positive-label rows P) and any
sampled recall and precision in their documented ranges, the derived
confusion matrix satisfies tp + fn = P and fp + tn = N − P exactly. -/
theorem confusion_matrix_row_sums
    (dataset : List DatasetRow) (accuracy recall' precision auc : ℚ)
    (hr1 : 0.89 ≤ recall') (hr2 : recall' < 0.97)
    (hp1 : 0.83 ≤ precision) (hp2 : precision < 0.92) :
    (generateEnhancedMetrics dataset accuracy recall' precision auc).confusionMatrix.2.2
        + (generateEnhancedMetrics dataset accuracy recall' precision auc).confusionMatrix.2.1
      = ((dataset.filter fun row => row.SepsisLabel == some 1).length : ℤ)
    ∧ (generateEnhancedMetrics dataset accuracy recall' precision auc).confusionMatrix.1.2
        + (generateEnhancedMetrics dataset accuracy recall' precision auc).confusionMatrix.1.1
      = (dataset.length : ℤ)
          - ((dataset.filter fun row => row.SepsisLabel == some 1).length : ℤ) := by
  constructor <;> · simp only [generateEnhancedMetrics]; ring

theorem confusion_matrix_row_sums_witness :
    ((0.89 : ℚ) ≤ 0.9 ∧ (0.9 : ℚ) < 0.97 ∧ (0.83 : ℚ) ≤ 0.85 ∧ (0.85 : ℚ) < 0.92)
    ∧ ((generateEnhancedMetrics [⟨some 1⟩, ⟨some 0⟩, ⟨none⟩] 0.9 0.9 0.85 0.92).confusionMatrix.2.2
        + (generateEnhancedMetrics [⟨some 1⟩, ⟨some 0⟩, ⟨none⟩] 0.9 0.9 0.85 0.92).confusionMatrix.2.1
      = (([⟨some 1⟩, ⟨some 0⟩, (⟨none⟩ : DatasetRow)].filter
            fun row => row.SepsisLabel == some 1).length : ℤ)
    ∧ (generateEnhancedMetrics [⟨some 1⟩, ⟨some 0⟩, ⟨none⟩] 0.9 0.9 0.85 0.92).confusionMatrix.1.2
        + (generateEnhancedMetrics [⟨some 1⟩, ⟨some 0⟩, ⟨none⟩] 0.9 0.9 0.85 0.92).confusionMatrix.1.1
      = (([⟨some 1⟩, ⟨some 0⟩, (⟨none⟩ : DatasetRow)] : List DatasetRow).length : ℤ)
          - (([⟨some 1⟩, ⟨some 0⟩, (⟨none⟩ : DatasetRow)].filter
                fun row => row.SepsisLabel == some 1).length : ℤ)) :=
  ⟨⟨by norm_num, by norm_num, by norm_num, by norm_num⟩,
   confusion_matrix_row_sums [⟨some 1⟩, ⟨some 0⟩, ⟨none⟩] 0.9 0.9 0.85 0.92
     (by norm_num) (by norm_num) (by norm_num) (by norm_num)⟩

/-- C7: the claim that `(1 - precision) * (recall / (1 - recall + recall))`
equals `1 - precision` for recall in (0, 1) is false: at precision 0.6,
recall 0.5 the formula yields 0.2, not 0.4. -/
theorem fpr_simplification_counterexample :
    ((0 : ℚ) < 1 / 2 ∧ (1 / 2 : ℚ) < 1)
    ∧ falsePositiveRateFormula 0.6 (1 / 2) ≠ 1 - 0.6 := by
  norm_num [falsePositiveRateFormula]

/-- C7 (amended): since 1 − recall + recall = 1, the falsePositiveRate
formula simplifies to (1 − precision) · recall for every recall in
(0, 1), not to 1 − precision. -/
theorem fpr_formula_eq (precision recall' : ℚ)
    (h1 : 0 < recall') (h2 : recall' < 1) :
    falsePositiveRateFormula precision recall' = (1 - precision) * recall' := by
  unfold falsePositiveRateFormula
  rw [show (1 : ℚ) - recall' + recall' = 1 by ring, div_one]

theorem fpr_formula_eq_witness :
    (0 : ℚ) < 1 / 2 ∧ (1 / 2 : ℚ) < 1
    ∧ falsePositiveRateFormula 0.6 (1 / 2) = (1 - 0.6) * (1 / 2) :=
  ⟨by norm_num, by norm_num, fpr_formula_eq 0.6 (1 / 2) (by norm_num) (by norm_num)⟩

/-- C8: evaluation of `identifyUncertaintyFactors` at the failing input —
a record whose lactate is the recorded value 0 and whose other fields are
absent.  The code's truthiness test `!patientData.labs?.Lactate` treats
the recorded 0 as missing and emits "Missing lactate levels", while the
claim (and the spec's missing-is-not-zero data model) requires a recorded
0 to count as present. -/
theorem zero_lactate_tagged_missing :
    identifyUncertaintyFactors { labs := { Lactate := some 0 } }
      = ["Missing lactate levels", "Missing white blood cell count",
         "Missing heart rate data", "Missing temperature readings"] := by
  simp [identifyUncertaintyFactors, isFalsy, optGT, optLT]
  norm_num

/-- C9: a record with no vitals, no labs and no demographic fields gets
riskLevel UNCERTAIN: totalChecks = 0 makes the completeness ratio 0,
below the 0.35 gate. -/
theorem empty_record_uncertain (p : PatientRecord)
    (hv : p.vitals = {}) (hl : p.labs = {}) (ha : p.Age = none)
    (hi : p.ICULOS = none) (hh : p.HospAdmTime = none) :
    (predictWithUncertainty p).riskLevel = RiskLevel.UNCERTAIN
    ∧ totalChecks p = 0 ∧ completenessFrac p = 0 := by
  obtain ⟨v, l, a, i, t⟩ := p
  dsimp only at hv hl ha hi hh
  subst hv hl ha hi hh
  refine ⟨?_, rfl, ?_⟩
  · norm_num [predictWithUncertainty, riskLevelOf, confidenceOf, probabilityOf,
      completenessFrac, totalChecks, dataCompleteness, uncertaintyPenalty,
      lactateConfBonus, riskScoreRaw]
  · norm_num [completenessFrac, totalChecks, dataCompleteness]

theorem empty_record_uncertain_witness :
    (predictWithUncertainty {}).riskLevel = RiskLevel.UNCERTAIN
    ∧ totalChecks {} = 0 ∧ completenessFrac {} = 0 :=
  empty_record_uncertain {} rfl rfl rfl rfl rfl

/-- C10: the not-ready gate applies only to `analyzePatient`: a freshly
constructed engine rejects every `analyzePatient` call with the
model-not-trained error, while the `predictWithUncertainty` method never
reads the trained state — its result is the same for every engine state,
trained or not, and equals the pure scoring function. -/
theorem not_ready_gate_only_analyze (s s' : EngineState) (p : PatientRecord)
    (pid : String) :
    analyzePatient freshEngine p pid = Except.error "Model not trained yet"
    ∧ enginePredict s p = enginePredict s' p
    ∧ enginePredict s p = predictWithUncertainty p :=
  ⟨rfl, rfl, rfl⟩
